import Mathlib

/-!
Shallow embedding of the `vss-rust` program (src/src/main.rs), a Windows
VSS writer enumerator.  External COM calls are modelled by an environment
record that fixes each call's outcome; the program's functions are
translated into pure Lean functions over that environment, producing the
returned values together with a trace of the external calls performed.
-/

namespace VssRust

/-! ## Hex formatting (`hresult_to_hex`, from `format!("0x{:08X}", hr)`) -/

/-- Uppercase hexadecimal digit character for `n < 16`. -/
def hexDigit (n : Nat) : Char :=
  if n < 10 then Char.ofNat (48 + n) else Char.ofNat (55 + n)

/-- Fixed-width big-endian uppercase hex rendering: `d` digits of `n`,
matching Rust's zero-padded `{:0dX}` for `n < 16 ^ d`. -/
def hexChars : Nat → Nat → List Char
  | 0, _ => []
  | d + 1, n => hexDigit (n / 16 ^ d % 16) :: hexChars d n

/-- `fn hresult_to_hex(hr: i32) -> String { format!("0x{:08X}", hr) }`.
Rust formats the two's-complement bit pattern of the `i32`, which for
`-2^31 ≤ hr < 2^31` is `hr % 2^32` (Euclidean remainder). -/
def hresult_to_hex (hr : Int) : String :=
  String.mk ('0' :: 'x' :: hexChars 8 (hr % 4294967296).toNat)

/-- The sixteen characters Rust's `{:X}` can emit. -/
def upperHexDigits : List Char := "0123456789ABCDEF".data

/-- Numeric value of an uppercase hex digit character. -/
def hexVal (c : Char) : Nat :=
  if c.toNat ≤ 57 then c.toNat - 48 else c.toNat - 55

theorem hexVal_hexDigit (m : Nat) (h : m < 16) : hexVal (hexDigit m) = m := by
  have hfin : ∀ k : Fin 16, hexVal (hexDigit k.val) = k.val := by decide
  exact hfin ⟨m, h⟩

theorem hexDigit_mem_upperHexDigits (m : Nat) (h : m < 16) :
    hexDigit m ∈ upperHexDigits := by
  have hfin : ∀ k : Fin 16, hexDigit k.val ∈ upperHexDigits := by decide
  exact hfin ⟨m, h⟩

theorem hexChars_length (d n : Nat) : (hexChars d n).length = d := by
  induction d generalizing n with
  | zero => rfl
  | succ d ih => simp [hexChars, ih]

theorem hexChars_mem (d n : Nat) : ∀ c ∈ hexChars d n, c ∈ upperHexDigits := by
  induction d generalizing n with
  | zero => intro c hc; cases hc
  | succ d ih =>
    intro c hc
    rcases hc with _ | ⟨_, hc⟩
    · exact hexDigit_mem_upperHexDigits _ (Nat.mod_lt _ (by norm_num))
    · exact ih n c hc

theorem hexChars_foldl (d n : Nat) :
    ∀ a, (hexChars d n).foldl (fun x c => 16 * x + hexVal c) a
      = a * 16 ^ d + n % 16 ^ d := by
  induction d with
  | zero => intro a; simp [hexChars, Nat.mod_one]
  | succ d ih =>
    intro a
    have hq : n / 16 ^ d % 16 < 16 := Nat.mod_lt _ (by norm_num)
    simp only [hexChars, List.foldl_cons]
    rw [ih, hexVal_hexDigit _ hq]
    have hm : n % (16 ^ d * 16) = n % 16 ^ d + 16 ^ d * (n / 16 ^ d % 16) :=
      Nat.mod_mul
    rw [pow_succ, hm]
    ring

/-- Claim C6: for every signed 32-bit status code, `hresult_to_hex` is a pure
total function producing exactly 10 characters, the prefix "0x" followed by 8
uppercase zero-padded hex digits whose value is the code's 32-bit bit pattern;
decimal 2 yields "0x00000002" and the bit pattern of -2147024809 yields
"0x80070057". -/
theorem hresult_to_hex_spec :
    (∀ hr : Int, -2147483648 ≤ hr → hr < 2147483648 →
      (hresult_to_hex hr).length = 10 ∧
      (hresult_to_hex hr).data.take 2 = ['0', 'x'] ∧
      (∀ c ∈ (hresult_to_hex hr).data.drop 2, c ∈ upperHexDigits) ∧
      ((hresult_to_hex hr).data.drop 2).foldl (fun x c => 16 * x + hexVal c) 0
        = (hr % 4294967296).toNat) ∧
    hresult_to_hex 2 = "0x00000002" ∧
    hresult_to_hex (-2147024809) = "0x80070057" := by
  refine ⟨fun hr _ _ => ?_, by decide, by decide⟩
  have h168 : (16 : Nat) ^ 8 = 4294967296 := by norm_num
  have hlt : (hr % 4294967296).toNat < 16 ^ 8 := by
    have h1 : hr % 4294967296 < 4294967296 :=
      Int.emod_lt_of_pos hr (by norm_num)
    omega
  refine ⟨?_, ?_, ?_, ?_⟩
  · show (hresult_to_hex hr).data.length = 10
    simp [hresult_to_hex, hexChars_length]
  · rfl
  · intro c hc
    exact hexChars_mem 8 _ c (by simpa [hresult_to_hex] using hc)
  · show (hexChars 8 (hr % 4294967296).toNat).foldl
        (fun x c => 16 * x + hexVal c) 0 = (hr % 4294967296).toNat
    rw [hexChars_foldl, Nat.mod_eq_of_lt hlt]
    ring

/-- Concrete instance of C6 at `hr = 259`. -/
theorem hresult_to_hex_spec_witness :
    (hresult_to_hex 259).length = 10 ∧
    (hresult_to_hex 259).data.take 2 = ['0', 'x'] ∧
    (∀ c ∈ (hresult_to_hex 259).data.drop 2, c ∈ upperHexDigits) ∧
    ((hresult_to_hex 259).data.drop 2).foldl (fun x c => 16 * x + hexVal c) 0
      = ((259 : Int) % 4294967296).toNat :=
  hresult_to_hex_spec.1 259 (by decide) (by decide)

/-! ## GUID formatting (`guid_to_string`, wrapping `StringFromGUID2`) -/

/-- The winapi `GUID` struct: `Data1: u32, Data2: u16, Data3: u16,
Data4: [u8; 8]` (the byte array is a `List` here). -/
structure GUID where
  Data1 : Nat
  Data2 : Nat
  Data3 : Nat
  Data4 : List Nat
deriving DecidableEq

/-- Canonical braced-hyphenated uppercase text of a GUID, as
`StringFromGUID2` documents it (38 characters). -/
def guidChars (g : GUID) : List Char :=
  ['\x7b'] ++ hexChars 8 g.Data1 ++ ['-'] ++ hexChars 4 g.Data2 ++ ['-']
    ++ hexChars 4 g.Data3 ++ ['-'] ++ hexChars 2 (g.Data4.headD 0)
    ++ hexChars 2 ((g.Data4.drop 1).headD 0) ++ ['-']
    ++ (g.Data4.drop 2).flatMap (fun b => hexChars 2 b) ++ ['\x7d']

def guidCanonical (g : GUID) : String := String.mk (guidChars g)

/-- Rust's `String::from_utf16_lossy`: decode UTF-16 code units, pairing
surrogates and replacing unpaired surrogates with U+FFFD. -/
def utf16Lossy : List Nat → List Char
  | [] => []
  | [u] =>
    if u < 55296 ∨ 57344 ≤ u then [Char.ofNat u] else ['�']
  | u :: v :: rest =>
    if u < 55296 ∨ 57344 ≤ u then Char.ofNat u :: utf16Lossy (v :: rest)
    else if u < 56320 ∧ 56320 ≤ v ∧ v < 57344 then
      Char.ofNat (65536 + (u - 55296) * 1024 + (v - 56320)) :: utf16Lossy rest
    else '�' :: utf16Lossy (v :: rest)

/-- Rust's `trim_end_matches('\0')` on the decoded characters. -/
def trimEndNulls (l : List Char) : List Char :=
  (l.reverse.dropWhile (fun c => c == '\x00')).reverse

/-- Outcome of the external `StringFromGUID2` call: the returned length and
the contents of the 39-element `u16` buffer after the call. -/
structure GuidOracle where
  retLen : GUID → Int
  bufAfter : GUID → List Nat

/-- `fn guid_to_string(guid: &GUID) -> String`: calls `StringFromGUID2`
into a 39-element buffer; if the returned length is positive, decodes the
buffer with `from_utf16_lossy` and trims trailing NULs, otherwise returns
the fixed sentinel. -/
def guid_to_string (o : GuidOracle) (g : GUID) : String :=
  if 0 < o.retLen g then String.mk (trimEndNulls (utf16Lossy (o.bufAfter g)))
  else "Conversion failed"

/-- The documented behaviour of `StringFromGUID2` with a 39-element buffer:
either it fails (non-positive length, buffer untouched, still all zeros) or
it returns 39 having written the 38 canonical characters plus a NUL. -/
def OracleConforms (o : GuidOracle) : Prop :=
  ∀ g : GUID,
    (o.retLen g ≤ 0 ∧ o.bufAfter g = List.replicate 39 0) ∨
    (o.retLen g = 39 ∧ o.bufAfter g = (guidChars g).map Char.toNat ++ [0])

theorem utf16Lossy_ascii :
    ∀ l : List Nat, (∀ u ∈ l, u < 55296) → utf16Lossy l = l.map Char.ofNat
  | [], _ => rfl
  | [u], h => by simp [utf16Lossy, h u (by simp)]
  | u :: v :: rest, h => by
    have hu : u < 55296 := h u (by simp)
    have htail := utf16Lossy_ascii (v :: rest) (fun x hx => h x (by simp at hx ⊢; tauto))
    simp [utf16Lossy, hu, htail]

theorem utf16Lossy_map_toNat (l : List Char) (h : ∀ c ∈ l, c.toNat < 55296) :
    utf16Lossy (l.map Char.toNat) = l := by
  rw [utf16Lossy_ascii _ (by
    intro u hu
    rcases List.mem_map.1 hu with ⟨c, hc, rfl⟩
    exact h c hc)]
  rw [List.map_map]
  have hcongr : ∀ c ∈ l, (Char.ofNat ∘ Char.toNat) c = id c := by
    intro c _
    simp [Char.ofNat_toNat]
  rw [List.map_congr_left hcongr, List.map_id]

theorem trimEndNulls_append_null (l : List Char) :
    trimEndNulls (l ++ ['\x00']) = trimEndNulls l := by
  unfold trimEndNulls
  simp [List.reverse_append, List.dropWhile_cons]

theorem trimEndNulls_eq_self {l : List Char} (h : ∀ c ∈ l, c ≠ '\x00') :
    trimEndNulls l = l := by
  unfold trimEndNulls
  cases hrev : l.reverse with
  | nil =>
    have : l = [] := by simpa using congrArg List.reverse hrev
    simp [this]
  | cons x rest =>
    have hx : x ∈ l := by
      rw [← List.mem_reverse, hrev]; exact List.mem_cons_self x rest
    rw [List.dropWhile_cons]
    have hxne : (x == '\x00') = false := beq_eq_false_iff_ne.2 (h x hx)
    rw [hxne]
    simp only [Bool.false_eq_true, if_false]
    rw [← hrev, List.reverse_reverse]

theorem guidChars_good (g : GUID) :
    ∀ c ∈ guidChars g, c.toNat < 55296 ∧ c ≠ '\x00' := by
  have hhex : ∀ d n, ∀ c ∈ hexChars d n, c.toNat < 55296 ∧ c ≠ '\x00' := by
    intro d n c hc
    have h16 : ∀ x ∈ upperHexDigits, x.toNat < 55296 ∧ x ≠ '\x00' := by decide
    exact h16 c (hexChars_mem d n c hc)
  unfold guidChars
  refine List.forall_mem_append.2 ⟨?_, by decide⟩
  refine List.forall_mem_append.2 ⟨?_, ?_⟩
  swap
  · intro c hc
    rcases List.mem_flatMap.1 hc with ⟨b, _, hcb⟩
    exact hhex 2 b c hcb
  refine List.forall_mem_append.2 ⟨?_, by decide⟩
  refine List.forall_mem_append.2 ⟨?_, hhex 2 _⟩
  refine List.forall_mem_append.2 ⟨?_, hhex 2 _⟩
  refine List.forall_mem_append.2 ⟨?_, by decide⟩
  refine List.forall_mem_append.2 ⟨?_, hhex 4 _⟩
  refine List.forall_mem_append.2 ⟨?_, by decide⟩
  refine List.forall_mem_append.2 ⟨?_, hhex 4 _⟩
  refine List.forall_mem_append.2 ⟨?_, by decide⟩
  exact List.forall_mem_append.2 ⟨by decide, hhex 8 _⟩

/-- Claim C7: the identifier formatter is total; under the platform contract
for the conversion call it returns the canonical braced-hyphenated text
exactly when the reported length is positive, and the fixed sentinel string
exactly when the reported length is non-positive. -/
theorem guid_to_string_total (o : GuidOracle) (h : OracleConforms o)
    (g : GUID) :
    (0 < o.retLen g ∧ guid_to_string o g = guidCanonical g) ∨
    (o.retLen g ≤ 0 ∧ guid_to_string o g = "Conversion failed") := by
  rcases h g with ⟨hle, _⟩ | ⟨heq, hbuf⟩
  · right
    exact ⟨hle, by rw [guid_to_string, if_neg (not_lt.2 hle)]⟩
  · left
    have hpos : 0 < o.retLen g := by rw [heq]; norm_num
    refine ⟨hpos, ?_⟩
    rw [guid_to_string, if_pos hpos, hbuf]
    have hmap : (guidChars g).map Char.toNat ++ [0]
        = (guidChars g ++ ['\x00']).map Char.toNat := by simp
    rw [hmap, utf16Lossy_map_toNat _ (by
      intro c hc
      rcases List.mem_append.1 hc with hc | hc
      · exact (guidChars_good g c hc).1
      · simp at hc; simp [hc])]
    rw [trimEndNulls_append_null,
      trimEndNulls_eq_self (fun c hc => (guidChars_good g c hc).2)]
    rfl

/-- A conforming oracle (the success behaviour of `StringFromGUID2`). -/
def okGuidOracle : GuidOracle :=
  ⟨fun _ => 39, fun g => (guidChars g).map Char.toNat ++ [0]⟩

/-- A concrete GUID for witnesses. -/
def gEx : GUID := ⟨1, 2, 3, [0, 1, 2, 3, 4, 5, 6, 7]⟩

/-- Concrete instance of C7 at `gEx` with the conforming oracle. -/
theorem guid_to_string_total_witness :
    (0 < okGuidOracle.retLen gEx ∧
      guid_to_string okGuidOracle gEx = guidCanonical gEx) ∨
    (okGuidOracle.retLen gEx ≤ 0 ∧
      guid_to_string okGuidOracle gEx = "Conversion failed") :=
  guid_to_string_total okGuidOracle (fun _ => Or.inr ⟨rfl, rfl⟩) gEx

/-! ## The pipeline (`wait_for_async`, `list_vss_writers`, `main`)

External COM calls are recorded as events; the environment fixes each
call's outcome. -/

/-- One external call performed by the program, in program order. -/
inductive Event where
  | coInitialize
  | createComponents
  | initializeForBackup
  | setBackupState
  | gatherWriterMetadata
  | asyncWait
  | asyncQueryStatus
  | getWriterStatusCount
  | getWriterStatus (i : Nat)
  | freeWriterStatus
  | releaseSession
  | coUninitialize
deriving DecidableEq

/-- `E_POINTER` (`0x80004003`) as a signed 32-bit value. -/
def E_POINTER : Int := -2147467261

/-- `fn wait_for_async(p_async: *mut IVssAsync) -> HRESULT`.  Inputs: whether
the handle is null, the outcome of `Wait(INFINITE)`, the return code of
`QueryStatus`, and the `hr_status` out-value it writes.  The source tests
`FAILED(hr_status)` (not `FAILED(hr)`) after `QueryStatus` and returns
`hr_status` on both of those paths, so `qsRetHr` only feeds the log line and
never the result. -/
def wait_for_async (isNull : Bool) (waitHr qsRetHr qsOut : Int) :
    Int × List Event :=
  if isNull then (E_POINTER, [])
  else if waitHr < 0 then (waitHr, [Event.asyncWait])
  else if qsOut < 0 then (qsOut, [Event.asyncWait, Event.asyncQueryStatus])
  else (qsOut, [Event.asyncWait, Event.asyncQueryStatus])

/-- `struct WriterDetails { writer_id: String, writer_name: String }`. -/
structure WriterDetails where
  writer_id : String
  writer_name : String
deriving DecidableEq

/-- Outcomes of every external call `list_vss_writers` can make. -/
structure Env where
  coInitHr : Int
  createHr : Int
  createNull : Bool
  initializeHr : Int
  setBackupStateHr : Int
  gatherHr : Int
  asyncNull : Bool
  waitHr : Int
  queryStatusRetHr : Int
  queryStatusOut : Int
  countHr : Int
  writerCount : Nat
  writerStatusHr : Nat → Int
  writerGuid : Nat → GUID
  writerNamePtr : Nat → Nat
  writerNameText : Nat → List Nat
  guidOracle : GuidOracle

/-- Rust's `Debug`/`Pointer` formatting of a raw pointer: `0x` followed by
the address in minimal lowercase hex.  This is what
`format!("{:?}", writer_name)` produces for `writer_name: *mut u16`. -/
def ptrDebug (p : Nat) : String :=
  String.mk ('0' :: 'x' :: Nat.toDigits 16 p)

/-- The record pushed for index `i` when `GetWriterStatus(i)` returns
`S_OK`: the formatted GUID and the `Debug`-formatted name pointer. -/
def writerRecord (env : Env) (i : Nat) : WriterDetails :=
  { writer_id := guid_to_string env.guidOracle (env.writerGuid i)
    writer_name := ptrDebug (env.writerNamePtr i) }

/-- The `for i in 0..writer_count` loop: push a record exactly when the
per-writer query returns `S_OK`. -/
def enumLoop (env : Env) : List WriterDetails :=
  (List.range env.writerCount).foldl
    (fun acc i =>
      if env.writerStatusHr i = 0 then acc ++ [writerRecord env i] else acc) []

/-- `fn list_vss_writers() -> Vec<WriterDetails>`, returning the vector
together with the trace of external calls.  Guards are exactly the
source's: `hr != S_OK` after `CoInitializeEx`, `hr != S_OK || p_vss.is_null()`
after `CreateVssBackupComponents`, `hr != S_OK` after `InitializeForBackup`,
`FAILED(hr)` after `SetBackupState`, `hr != S_OK` after
`GatherWriterMetadata`, `FAILED` on the async-wait result and on
`GetWriterStatusCount`, and `== S_OK` on each `GetWriterStatus`. -/
def list_vss_writers (env : Env) : List WriterDetails × List Event :=
  if env.coInitHr ≠ 0 then ([], [Event.coInitialize])
  else if env.createHr ≠ 0 ∨ env.createNull = true then
    ([], [Event.coInitialize, Event.createComponents, Event.coUninitialize])
  else if env.initializeHr ≠ 0 then
    ([], [Event.coInitialize, Event.createComponents,
      Event.initializeForBackup, Event.releaseSession, Event.coUninitialize])
  else if env.setBackupStateHr < 0 then
    ([], [Event.coInitialize, Event.createComponents,
      Event.initializeForBackup, Event.setBackupState, Event.releaseSession,
      Event.coUninitialize])
  else if env.gatherHr ≠ 0 then
    ([], [Event.coInitialize, Event.createComponents,
      Event.initializeForBackup, Event.setBackupState,
      Event.gatherWriterMetadata, Event.releaseSession, Event.coUninitialize])
  else
    let w := wait_for_async env.asyncNull env.waitHr env.queryStatusRetHr
      env.queryStatusOut
    let pre := [Event.coInitialize, Event.createComponents,
      Event.initializeForBackup, Event.setBackupState,
      Event.gatherWriterMetadata] ++ w.2
    if w.1 < 0 then ([], pre ++ [Event.releaseSession, Event.coUninitialize])
    else if env.countHr < 0 then
      ([], pre ++ [Event.getWriterStatusCount, Event.releaseSession,
        Event.coUninitialize])
    else
      (enumLoop env,
        pre ++ [Event.getWriterStatusCount]
          ++ (List.range env.writerCount).map Event.getWriterStatus
          ++ [Event.freeWriterStatus, Event.releaseSession,
            Event.coUninitialize])

/-- `fn main()`: print the header, then two lines per writer record. -/
def mainStdout (env : Env) : List String :=
  "List of VSS Writers:" ::
    (list_vss_writers env).1.flatMap
      (fun w => ["Id: " ++ w.writer_id, "Name: " ++ w.writer_name])

/-- `main` returns `()`, so the process exit status is 0 on every run. -/
def mainExitCode (_env : Env) : Nat := 0

/-- Claim C4 at the failing input: with a non-null handle, a successful
wait, a `QueryStatus` call that itself reports failure (returns `E_FAIL` =
-2147467259, leaving the out-value `hr_status` at its initialization 0),
the helper returns 0 (`S_OK`) — not the status query's own return code, as
the contract states: the source tests `FAILED(hr_status)` where the
parallel wait branch tests `FAILED(hr)`, and its log line still prints
`hr`. -/
theorem wait_for_async_query_failure_ignored :
    ((-2147467259 : Int) < 0) ∧
      (wait_for_async false 0 (-2147467259) 0).1 = 0 ∧
      ((0 : Int) ≠ -2147467259) := by
  decide

/-- Claim C4 (amended): given a null handle the helper returns `E_POINTER`
immediately without any blocking call; if the blocking wait reports failure
it returns that wait code without querying status; otherwise it queries
status once and returns the reported final operation status regardless of
the status query call's own return code. -/
theorem wait_for_async_contract (isNull : Bool) (waitHr qsRetHr qsOut : Int) :
    (isNull = true → wait_for_async isNull waitHr qsRetHr qsOut
      = (E_POINTER, [])) ∧
    (isNull = false → waitHr < 0 → wait_for_async isNull waitHr qsRetHr qsOut
      = (waitHr, [Event.asyncWait])) ∧
    (isNull = false → 0 ≤ waitHr → wait_for_async isNull waitHr qsRetHr qsOut
      = (qsOut, [Event.asyncWait, Event.asyncQueryStatus])) := by
  refine ⟨?_, ?_, ?_⟩
  · intro h; subst h; rfl
  · intro h hw; subst h; simp [wait_for_async, hw]
  · intro h hw; subst h
    simp only [wait_for_async, Bool.false_eq_true, if_false, not_lt.2 hw,
      ite_self, if_neg (not_lt.2 hw)]

/-- Concrete instances of the amended C4 on all three paths. -/
theorem wait_for_async_contract_witness :
    wait_for_async true 0 0 7 = (E_POINTER, []) ∧
    wait_for_async false (-5) 0 7 = (-5, [Event.asyncWait]) ∧
    wait_for_async false 0 (-1) 7
      = (7, [Event.asyncWait, Event.asyncQueryStatus]) :=
  ⟨(wait_for_async_contract true 0 0 7).1 rfl,
    (wait_for_async_contract false (-5) 0 7).2.1 rfl (by decide),
    (wait_for_async_contract false 0 (-1) 7).2.2 rfl (by decide)⟩

/-! ## Writer-enumeration claims -/

theorem enumLoop_eq_filterMap (env : Env) :
    enumLoop env = (List.range env.writerCount).filterMap
      (fun i => if env.writerStatusHr i = 0 then some (writerRecord env i)
        else none) := by
  have key : ∀ (l : List Nat) (acc : List WriterDetails),
      l.foldl (fun acc i => if env.writerStatusHr i = 0
          then acc ++ [writerRecord env i] else acc) acc
        = acc ++ l.filterMap (fun i => if env.writerStatusHr i = 0
          then some (writerRecord env i) else none) := by
    intro l
    induction l with
    | nil => intro acc; simp
    | cons x xs ih =>
      intro acc
      by_cases hx : env.writerStatusHr x = 0
      · simp [hx, ih, List.filterMap_cons]
      · simp [hx, ih, List.filterMap_cons]
  simpa [enumLoop] using key (List.range env.writerCount) []

/-- The pipeline conditions under which the writer loop is reached. -/
theorem list_vss_writers_enum_branch (env : Env)
    (h1 : env.coInitHr = 0) (h2 : env.createHr = 0)
    (h3 : env.createNull = false) (h4 : env.initializeHr = 0)
    (h5 : 0 ≤ env.setBackupStateHr) (h6 : env.gatherHr = 0)
    (h7 : env.asyncNull = false) (h8 : 0 ≤ env.waitHr)
    (h9 : 0 ≤ env.queryStatusOut) (h10 : 0 ≤ env.countHr) :
    list_vss_writers env
      = (enumLoop env,
        [Event.coInitialize, Event.createComponents,
          Event.initializeForBackup, Event.setBackupState,
          Event.gatherWriterMetadata, Event.asyncWait, Event.asyncQueryStatus,
          Event.getWriterStatusCount]
          ++ (List.range env.writerCount).map Event.getWriterStatus
          ++ [Event.freeWriterStatus, Event.releaseSession,
            Event.coUninitialize]) := by
  simp [list_vss_writers, wait_for_async, h1, h2, h3, h4, h6, h7,
    not_lt.2 h5, not_lt.2 h8, not_lt.2 h9, not_lt.2 h10]

/-- Claim C1: whenever the writer loop is reached, the returned list holds
exactly one record per index whose per-writer query returned `S_OK`, in
increasing index order; failed indices are skipped and enumeration
continues. -/
theorem list_vss_writers_per_writer (env : Env)
    (h1 : env.coInitHr = 0) (h2 : env.createHr = 0)
    (h3 : env.createNull = false) (h4 : env.initializeHr = 0)
    (h5 : 0 ≤ env.setBackupStateHr) (h6 : env.gatherHr = 0)
    (h7 : env.asyncNull = false) (h8 : 0 ≤ env.waitHr)
    (h9 : 0 ≤ env.queryStatusOut) (h10 : 0 ≤ env.countHr) :
    (list_vss_writers env).1
      = (List.range env.writerCount).filterMap
        (fun i => if env.writerStatusHr i = 0 then some (writerRecord env i)
          else none) := by
  rw [← enumLoop_eq_filterMap]
  simp [list_vss_writers, wait_for_async, h1, h2, h3, h4, h6, h7,
    not_lt.2 h5, not_lt.2 h8, not_lt.2 h9, not_lt.2 h10]

/-- Scenario C environment: three writers, the second per-writer query
fails, everything earlier succeeds. -/
def envScenarioC : Env :=
  ⟨0, 0, false, 0, 0, 0, false, 0, 0, 271532810, 0, 3,
    fun i => if i = 1 then -2147212529 else 0,
    fun i => ⟨i, 0, 0, [0, 0, 0, 0, 0, 0, 0, 0]⟩,
    fun i => 4096 + i, fun _ => [], okGuidOracle⟩

/-- Concrete instance of C1 (end-to-end scenario C): with three writers and
the second query failing, the result is exactly the first and third
writers' records in index order. -/
theorem list_vss_writers_per_writer_witness :
    (list_vss_writers envScenarioC).1
      = [writerRecord envScenarioC 0, writerRecord envScenarioC 2] := by
  have h := list_vss_writers_per_writer envScenarioC rfl rfl rfl rfl
    (by decide) rfl rfl (by decide) (by decide) (by decide)
  rw [h]
  rfl

/-! ## Pipeline-failure claims -/

/-- Claim C2: a failure at COM initialization, component creation, session
initialization, backup-state setting, the gather request, or the async wait
aborts immediately with an empty list, releasing what was acquired in LIFO
order (the session `Release` strictly before `CoUninitialize`). -/
theorem pipeline_failure_empty (env : Env) :
    (env.coInitHr ≠ 0 →
      list_vss_writers env = ([], [Event.coInitialize])) ∧
    (env.coInitHr = 0 → (env.createHr ≠ 0 ∨ env.createNull = true) →
      list_vss_writers env
        = ([], [Event.coInitialize, Event.createComponents,
          Event.coUninitialize])) ∧
    (env.coInitHr = 0 → env.createHr = 0 → env.createNull = false →
      env.initializeHr ≠ 0 →
      list_vss_writers env
        = ([], [Event.coInitialize, Event.createComponents,
          Event.initializeForBackup, Event.releaseSession,
          Event.coUninitialize])) ∧
    (env.coInitHr = 0 → env.createHr = 0 → env.createNull = false →
      env.initializeHr = 0 → env.setBackupStateHr < 0 →
      list_vss_writers env
        = ([], [Event.coInitialize, Event.createComponents,
          Event.initializeForBackup, Event.setBackupState,
          Event.releaseSession, Event.coUninitialize])) ∧
    (env.coInitHr = 0 → env.createHr = 0 → env.createNull = false →
      env.initializeHr = 0 → 0 ≤ env.setBackupStateHr → env.gatherHr ≠ 0 →
      list_vss_writers env
        = ([], [Event.coInitialize, Event.createComponents,
          Event.initializeForBackup, Event.setBackupState,
          Event.gatherWriterMetadata, Event.releaseSession,
          Event.coUninitialize])) ∧
    (env.coInitHr = 0 → env.createHr = 0 → env.createNull = false →
      env.initializeHr = 0 → 0 ≤ env.setBackupStateHr → env.gatherHr = 0 →
      (wait_for_async env.asyncNull env.waitHr env.queryStatusRetHr
        env.queryStatusOut).1 < 0 →
      list_vss_writers env
        = ([], [Event.coInitialize, Event.createComponents,
          Event.initializeForBackup, Event.setBackupState,
          Event.gatherWriterMetadata]
          ++ (wait_for_async env.asyncNull env.waitHr env.queryStatusRetHr
            env.queryStatusOut).2
          ++ [Event.releaseSession, Event.coUninitialize])) := by
  refine ⟨?_, ?_, ?_, ?_, ?_, ?_⟩
  · intro h1; simp [list_vss_writers, h1]
  · intro h1 h2; simp [list_vss_writers, h1, h2]
  · intro h1 h2 h3 h4; simp [list_vss_writers, h1, h2, h3, h4]
  · intro h1 h2 h3 h4 h5; simp [list_vss_writers, h1, h2, h3, h4, h5]
  · intro h1 h2 h3 h4 h5 h6
    simp [list_vss_writers, h1, h2, h3, h4, not_lt.2 h5, h6]
  · intro h1 h2 h3 h4 h5 h6 h7
    simp [list_vss_writers, h1, h2, h3, h4, not_lt.2 h5, h6, h7]

/-- Scenario B environment: `InitializeForBackup` fails, everything before
it succeeds. -/
def envInitFail : Env :=
  ⟨0, 0, false, -2147212529, 0, 0, false, 0, 0, 0, 0, 0,
    fun _ => 0, fun _ => gEx, fun _ => 0, fun _ => [], okGuidOracle⟩

/-- Concrete instance of C2 (end-to-end scenario B): the session-init
failure yields an empty list, with `Release` before `CoUninitialize`. -/
theorem pipeline_failure_empty_witness :
    list_vss_writers envInitFail
      = ([], [Event.coInitialize, Event.createComponents,
        Event.initializeForBackup, Event.releaseSession,
        Event.coUninitialize]) :=
  (pipeline_failure_empty envInitFail).2.2.1 rfl rfl rfl (by decide)

/-! ## Trace-shape facts shared by the resource claims -/

theorem not_mem_map_getWriterStatus (e : Event)
    (h : ∀ i, e ≠ Event.getWriterStatus i) (l : List Nat) :
    e ∉ l.map Event.getWriterStatus := by
  intro hmem
  rcases List.mem_map.1 hmem with ⟨i, _, hi⟩
  exact h i hi.symm

theorem count_map_getWriterStatus (e : Event)
    (h : ∀ i, e ≠ Event.getWriterStatus i) (l : List Nat) :
    (l.map Event.getWriterStatus).count e = 0 :=
  List.count_eq_zero.2 (not_mem_map_getWriterStatus e h l)

/-- Every run's trace is the COM-init-failure singleton, the creation
failure triple, or a prefix without `Release`/`CoUninitialize` followed by
exactly `Release` then `CoUninitialize`; the prefix waits at most once. -/
theorem trace_split (env : Env) :
    (env.coInitHr ≠ 0 ∧ (list_vss_writers env).2 = [Event.coInitialize]) ∨
    (env.coInitHr = 0 ∧ (env.createHr ≠ 0 ∨ env.createNull = true) ∧
      (list_vss_writers env).2
        = [Event.coInitialize, Event.createComponents,
          Event.coUninitialize]) ∨
    (env.coInitHr = 0 ∧ ∃ l : List Event,
      (list_vss_writers env).2
        = l ++ [Event.releaseSession, Event.coUninitialize] ∧
      Event.releaseSession ∉ l ∧ Event.coUninitialize ∉ l ∧
      l.count Event.asyncWait ≤ 1) := by
  by_cases h1 : env.coInitHr = 0
  swap
  · exact Or.inl ⟨h1, by simp [list_vss_writers, h1]⟩
  by_cases h2 : env.createHr ≠ 0 ∨ env.createNull = true
  · exact Or.inr (Or.inl ⟨h1, h2, by simp [list_vss_writers, h1, h2]⟩)
  refine Or.inr (Or.inr ⟨h1, ?_⟩)
  push_neg at h2
  obtain ⟨h2a, h2b⟩ := h2
  have h2c : env.createNull = false := by
    revert h2b; cases env.createNull <;> simp
  by_cases h3 : env.initializeHr = 0
  swap
  · exact ⟨[Event.coInitialize, Event.createComponents,
      Event.initializeForBackup],
      by simp [list_vss_writers, h1, h2a, h2c, h3], by decide, by decide,
      by decide⟩
  by_cases h4 : env.setBackupStateHr < 0
  · exact ⟨[Event.coInitialize, Event.createComponents,
      Event.initializeForBackup, Event.setBackupState],
      by simp [list_vss_writers, h1, h2a, h2c, h3, h4], by decide, by decide,
      by decide⟩
  by_cases h5 : env.gatherHr = 0
  swap
  · exact ⟨[Event.coInitialize, Event.createComponents,
      Event.initializeForBackup, Event.setBackupState,
      Event.gatherWriterMetadata],
      by simp [list_vss_writers, h1, h2a, h2c, h3, h4, h5], by decide,
      by decide, by decide⟩
  by_cases h6 : env.asyncNull = true
  · refine ⟨[Event.coInitialize, Event.createComponents,
      Event.initializeForBackup, Event.setBackupState,
      Event.gatherWriterMetadata], ?_, by decide, by decide, by decide⟩
    have hEP : E_POINTER < 0 := by decide
    simp [list_vss_writers, wait_for_async, h1, h2a, h2c, h3, h4, h5, h6,
      hEP]
  by_cases h7 : env.waitHr < 0
  · refine ⟨[Event.coInitialize, Event.createComponents,
      Event.initializeForBackup, Event.setBackupState,
      Event.gatherWriterMetadata, Event.asyncWait], ?_, by decide, by decide,
      by decide⟩
    simp [list_vss_writers, wait_for_async, h1, h2a, h2c, h3, h4, h5, h6, h7]
  by_cases h8 : env.queryStatusOut < 0
  · refine ⟨[Event.coInitialize, Event.createComponents,
      Event.initializeForBackup, Event.setBackupState,
      Event.gatherWriterMetadata, Event.asyncWait, Event.asyncQueryStatus],
      ?_, by decide, by decide, by decide⟩
    simp [list_vss_writers, wait_for_async, h1, h2a, h2c, h3, h4, h5, h6, h7,
      h8]
  by_cases h9 : env.countHr < 0
  · refine ⟨[Event.coInitialize, Event.createComponents,
      Event.initializeForBackup, Event.setBackupState,
      Event.gatherWriterMetadata, Event.asyncWait, Event.asyncQueryStatus,
      Event.getWriterStatusCount], ?_, by decide, by decide, by decide⟩
    simp [list_vss_writers, wait_for_async, h1, h2a, h2c, h3, h4, h5, h6, h7,
      h8, h9]
  · refine ⟨[Event.coInitialize, Event.createComponents,
      Event.initializeForBackup, Event.setBackupState,
      Event.gatherWriterMetadata, Event.asyncWait, Event.asyncQueryStatus,
      Event.getWriterStatusCount]
      ++ (List.range env.writerCount).map Event.getWriterStatus
      ++ [Event.freeWriterStatus], ?_, ?_, ?_, ?_⟩
    · simp [list_vss_writers, wait_for_async, h1, h2a, h2c, h3, h4, h5, h6,
        h7, h8, h9]
    · simp only [List.mem_append, List.mem_cons, List.not_mem_nil]
      push_neg
      refine ⟨⟨by decide, ?_⟩, by decide⟩
      intro hmem
      exact not_mem_map_getWriterStatus Event.releaseSession
        (by intro i h; cases h) _ hmem
    · simp only [List.mem_append, List.mem_cons, List.not_mem_nil]
      push_neg
      refine ⟨⟨by decide, ?_⟩, by decide⟩
      intro hmem
      exact not_mem_map_getWriterStatus Event.coUninitialize
        (by intro i h; cases h) _ hmem
    · rw [List.count_append, List.count_append,
        count_map_getWriterStatus Event.asyncWait (by intro i h; cases h)]
      decide

/-- COM-initialization-failure environment: `CoInitializeEx` returns 1. -/
def envCoInitFail : Env :=
  ⟨1, 0, false, 0, 0, 0, false, 0, 0, 0, 0, 0,
    fun _ => 0, fun _ => gEx, fun _ => 0, fun _ => [], okGuidOracle⟩

/-- Claim C3, counterexample: in the invocation where `CoInitializeEx`
fails, `CoUninitialize` is called zero times, so the subsystem-deinitialize
call does not occur exactly once in every invocation. -/
theorem coUninitialize_not_always_once :
    (list_vss_writers envCoInitFail).2.count Event.coUninitialize = 0 ∧
    ¬ (list_vss_writers envCoInitFail).2.count Event.coUninitialize = 1 := by
  decide

/-- Claim C3 (amended): in every invocation the session-release call occurs
at most once, and the subsystem-deinitialize call occurs exactly once when
COM initialization succeeded and zero times when it failed. -/
theorem release_counts (env : Env) :
    (list_vss_writers env).2.count Event.releaseSession ≤ 1 ∧
    (env.coInitHr = 0 →
      (list_vss_writers env).2.count Event.coUninitialize = 1) ∧
    (env.coInitHr ≠ 0 →
      (list_vss_writers env).2.count Event.coUninitialize = 0) := by
  rcases trace_split env with ⟨hne, htr⟩ | ⟨heq, _, htr⟩
    | ⟨heq, l, htr, hrel, hco, _⟩
  · rw [htr]
    exact ⟨by decide, fun h => absurd h hne, fun _ => by decide⟩
  · rw [htr]
    exact ⟨by decide, fun _ => by decide, fun h => absurd heq h⟩
  · rw [htr]
    refine ⟨?_, fun _ => ?_, fun h => absurd heq h⟩
    · rw [List.count_append, List.count_eq_zero.2 hrel]
      decide
    · rw [List.count_append, List.count_eq_zero.2 hco]
      decide

/-- Concrete instance of the amended C3 on the full-success run. -/
theorem release_counts_witness :
    (list_vss_writers envScenarioC).2.count Event.releaseSession ≤ 1 ∧
    (list_vss_writers envScenarioC).2.count Event.coUninitialize = 1 :=
  ⟨(release_counts envScenarioC).1, (release_counts envScenarioC).2.1 rfl⟩

/-! ## Temporal discipline (claim C9) -/

/-- Calls made through the session handle (`(*p_vss).…`), other than
`Release` itself. -/
def sessionUse : Event → Bool
  | Event.initializeForBackup => true
  | Event.setBackupState => true
  | Event.gatherWriterMetadata => true
  | Event.getWriterStatusCount => true
  | Event.getWriterStatus _ => true
  | Event.freeWriterStatus => true
  | _ => false

/-- No session-handle call occurs after the (first) `Release` in a trace. -/
def noUseAfterRelease : List Event → Bool
  | [] => true
  | Event.releaseSession :: rest => rest.all (fun e => !sessionUse e)
  | _ :: rest => noUseAfterRelease rest

theorem noUseAfterRelease_append (l1 l2 : List Event)
    (h : Event.releaseSession ∉ l1) :
    noUseAfterRelease (l1 ++ l2) = noUseAfterRelease l2 := by
  induction l1 with
  | nil => rfl
  | cons x xs ih =>
    have hx : x ≠ Event.releaseSession := by
      intro he; exact h (by rw [he]; exact List.mem_cons_self _ _)
    have hxs : Event.releaseSession ∉ xs :=
      fun hm => h (List.mem_cons_of_mem _ hm)
    cases x <;> simp_all [noUseAfterRelease]

theorem result_cases (env : Env) :
    (list_vss_writers env).1 = [] ∨
    (list_vss_writers env).1 = enumLoop env := by
  by_cases h1 : env.coInitHr = 0
  swap
  · exact Or.inl (by simp [list_vss_writers, h1])
  by_cases h2 : env.createHr ≠ 0 ∨ env.createNull = true
  · exact Or.inl (by simp [list_vss_writers, h1, h2])
  push_neg at h2
  obtain ⟨h2a, h2b⟩ := h2
  have h2c : env.createNull = false := by
    revert h2b; cases env.createNull <;> simp
  by_cases h3 : env.initializeHr = 0
  swap
  · exact Or.inl (by simp [list_vss_writers, h1, h2a, h2c, h3])
  by_cases h4 : env.setBackupStateHr < 0
  · exact Or.inl (by simp [list_vss_writers, h1, h2a, h2c, h3, h4])
  by_cases h5 : env.gatherHr = 0
  swap
  · exact Or.inl (by simp [list_vss_writers, h1, h2a, h2c, h3, h4, h5])
  by_cases h6 : (wait_for_async env.asyncNull env.waitHr env.queryStatusRetHr
      env.queryStatusOut).1 < 0
  · exact Or.inl (by simp [list_vss_writers, h1, h2a, h2c, h3, h4, h5, h6])
  by_cases h7 : env.countHr < 0
  · exact Or.inl (by
      simp [list_vss_writers, h1, h2a, h2c, h3, h4, h5, h6, h7])
  · exact Or.inr (by
      simp [list_vss_writers, h1, h2a, h2c, h3, h4, h5, h6, h7])

/-- Claim C9: in every execution the session handle is never used after it
is released, the async operation is waited on at most once, and every
returned record comes from an index whose per-writer query returned `S_OK`
(failed queries contribute nothing). -/
theorem session_discipline (env : Env) :
    noUseAfterRelease (list_vss_writers env).2 = true ∧
    (list_vss_writers env).2.count Event.asyncWait ≤ 1 ∧
    (∀ w ∈ (list_vss_writers env).1,
      ∃ i, i < env.writerCount ∧ env.writerStatusHr i = 0 ∧
        w = writerRecord env i) := by
  refine ⟨?_, ?_, ?_⟩
  · rcases trace_split env with ⟨_, htr⟩ | ⟨_, _, htr⟩
      | ⟨_, l, htr, hrel, _, _⟩
    · rw [htr]; rfl
    · rw [htr]; rfl
    · rw [htr, noUseAfterRelease_append _ _ hrel]; rfl
  · rcases trace_split env with ⟨_, htr⟩ | ⟨_, _, htr⟩
      | ⟨_, l, htr, _, _, hcnt⟩
    · rw [htr]; decide
    · rw [htr]; decide
    · rw [htr, List.count_append]
      have h2 : List.count Event.asyncWait
          [Event.releaseSession, Event.coUninitialize] = 0 := by decide
      omega
  · intro w hw
    rcases result_cases env with hres | hres
    · rw [hres] at hw; cases hw
    · rw [hres, enumLoop_eq_filterMap] at hw
      rcases List.mem_filterMap.1 hw with ⟨i, hi, hsome⟩
      by_cases hst : env.writerStatusHr i = 0
      · rw [if_pos hst] at hsome
        exact ⟨i, List.mem_range.1 hi, hst, (Option.some.inj hsome).symm⟩
      · rw [if_neg hst] at hsome; cases hsome

/-- Concrete instance of C9 on the full-success run. -/
theorem session_discipline_witness :
    noUseAfterRelease (list_vss_writers envScenarioC).2 = true ∧
    (list_vss_writers envScenarioC).2.count Event.asyncWait ≤ 1 ∧
    (∃ i, i < envScenarioC.writerCount ∧
      envScenarioC.writerStatusHr i = 0 ∧
      writerRecord envScenarioC 0 = writerRecord envScenarioC i) :=
  ⟨(session_discipline envScenarioC).1,
    (session_discipline envScenarioC).2.1,
    (session_discipline envScenarioC).2.2 (writerRecord envScenarioC 0)
      (by decide)⟩

/-! ## Writer-record fields (claim C5) -/

/-- One successful writer whose name pointer is `0x1000` and whose
pointed-to UTF-16 display name is "Writer1". -/
def envOneWriter : Env :=
  ⟨0, 0, false, 0, 0, 0, false, 0, 0, 271532810, 0, 1,
    fun _ => 0, fun _ => gEx, fun _ => 4096,
    fun _ => ['W', 'r', 'i', 't', 'e', 'r', '1'].map Char.toNat,
    okGuidOracle⟩

/-- Claim C5, evaluated at the failing input: the identifier half holds
(the id field is the canonical formatted GUID text), but the name field
stores the `Debug` formatting of the raw name pointer ("0x1000"), not the
display name the query returned ("Writer1"). -/
theorem writer_name_is_pointer_text :
    (list_vss_writers envOneWriter).1 = [writerRecord envOneWriter 0] ∧
    (writerRecord envOneWriter 0).writer_id = guidCanonical gEx ∧
    (writerRecord envOneWriter 0).writer_name = "0x1000" ∧
    String.mk (utf16Lossy (envOneWriter.writerNameText 0)) = "Writer1" ∧
    (writerRecord envOneWriter 0).writer_name ≠ "Writer1" := by
  decide

/-! ## Process output (claim C8) -/

theorem writer_lines (ws : List WriterDetails) :
    (ws.flatMap
      (fun w => ["Id: " ++ w.writer_id, "Name: " ++ w.writer_name])).length
      = 2 * ws.length ∧
    ∀ k : Nat, ∀ hk : k < ws.length,
      (ws.flatMap
        (fun w => ["Id: " ++ w.writer_id, "Name: " ++ w.writer_name]))[2 * k]?
        = some ("Id: " ++ (ws.get ⟨k, hk⟩).writer_id) ∧
      (ws.flatMap
        (fun w =>
          ["Id: " ++ w.writer_id, "Name: " ++ w.writer_name]))[2 * k + 1]?
        = some ("Name: " ++ (ws.get ⟨k, hk⟩).writer_name) := by
  induction ws with
  | nil => exact ⟨rfl, fun k hk => absurd hk (by simp)⟩
  | cons w ws ih =>
    constructor
    · simp only [List.flatMap_cons, List.length_append, List.length_cons,
        List.length_nil, ih.1]
      omega
    · intro k hk
      cases k with
      | zero =>
        constructor
        · simp [List.flatMap_cons]
        · simp [List.flatMap_cons]
      | succ k =>
        have hk' : k < ws.length := by simpa using hk
        have h1 := (ih.2 k hk').1
        have h2 := (ih.2 k hk').2
        constructor
        · show (("Id: " ++ w.writer_id) :: ("Name: " ++ w.writer_name)
              :: ws.flatMap (fun w =>
                ["Id: " ++ w.writer_id, "Name: " ++ w.writer_name]))[2 * (k + 1)]?
            = _
          have e1 : 2 * (k + 1) = 2 * k + 1 + 1 := by omega
          rw [e1, List.getElem?_cons_succ, List.getElem?_cons_succ, h1]
          rfl
        · show (("Id: " ++ w.writer_id) :: ("Name: " ++ w.writer_name)
              :: ws.flatMap (fun w =>
                ["Id: " ++ w.writer_id, "Name: " ++ w.writer_name]))[2 * (k + 1) + 1]?
            = _
          have e2 : 2 * (k + 1) + 1 = 2 * k + 1 + 1 + 1 := by omega
          rw [e2, List.getElem?_cons_succ, List.getElem?_cons_succ, h2]
          rfl

/-- Claim C8: the process exit status is 0 on every run, and standard
output is exactly the header line followed, for each enumerated record in
order, by its `Id:` line and its `Name:` line. -/
theorem main_output (env : Env) :
    mainExitCode env = 0 ∧
    (mainStdout env)[0]? = some "List of VSS Writers:" ∧
    (mainStdout env).length = 1 + 2 * (list_vss_writers env).1.length ∧
    ∀ k : Nat, ∀ hk : k < (list_vss_writers env).1.length,
      (mainStdout env)[1 + 2 * k]?
        = some ("Id: " ++ ((list_vss_writers env).1.get ⟨k, hk⟩).writer_id) ∧
      (mainStdout env)[2 + 2 * k]?
        = some ("Name: "
          ++ ((list_vss_writers env).1.get ⟨k, hk⟩).writer_name) := by
  refine ⟨rfl, by simp [mainStdout], ?_, ?_⟩
  · show ("List of VSS Writers:" :: _).length = _
    rw [List.length_cons, (writer_lines (list_vss_writers env).1).1]
    omega
  · intro k hk
    have h := (writer_lines (list_vss_writers env).1).2 k hk
    have e1 : 1 + 2 * k = 2 * k + 1 := by omega
    have e2 : 2 + 2 * k = 2 * k + 1 + 1 := by omega
    constructor
    · rw [e1]
      show ("List of VSS Writers:" :: _)[2 * k + 1]? = _
      rw [List.getElem?_cons_succ]
      exact h.1
    · rw [e2]
      show ("List of VSS Writers:" :: _)[2 * k + 1 + 1]? = _
      rw [List.getElem?_cons_succ]
      exact h.2

/-- Concrete instance of C8 on the scenario-C run. -/
theorem main_output_witness :
    mainExitCode envScenarioC = 0 ∧
    (mainStdout envScenarioC)[0]? = some "List of VSS Writers:" ∧
    (mainStdout envScenarioC)[1]?
      = some ("Id: "
        ++ ((list_vss_writers envScenarioC).1.get ⟨0, by decide⟩).writer_id) :=
  ⟨(main_output envScenarioC).1, (main_output envScenarioC).2.1, by
    have h := ((main_output envScenarioC).2.2.2 0 (by decide)).1
    simpa using h⟩

/-! ## Failure-check asymmetry (claim C10) -/

/-- Claim C10: failure detection is non-uniform.  A stage's call event is in
the trace exactly when the earlier guards passed; the strict steps
(`CoInitializeEx`, `CreateVssBackupComponents`, `InitializeForBackup`,
`GatherWriterMetadata`) must return exactly 0 for the pipeline to continue,
while the tolerant steps (`SetBackupState`, the async wait, the writer
count) only require a non-negative status; a per-writer record is appended
exactly when `GetWriterStatus` returns exactly 0. -/
theorem failure_check_asymmetry (env : Env) :
    (Event.createComponents ∈ (list_vss_writers env).2 ↔
      env.coInitHr = 0) ∧
    (Event.initializeForBackup ∈ (list_vss_writers env).2 ↔
      env.coInitHr = 0 ∧ env.createHr = 0 ∧ env.createNull = false) ∧
    (Event.setBackupState ∈ (list_vss_writers env).2 ↔
      env.coInitHr = 0 ∧ env.createHr = 0 ∧ env.createNull = false ∧
      env.initializeHr = 0) ∧
    (Event.gatherWriterMetadata ∈ (list_vss_writers env).2 ↔
      env.coInitHr = 0 ∧ env.createHr = 0 ∧ env.createNull = false ∧
      env.initializeHr = 0 ∧ 0 ≤ env.setBackupStateHr) ∧
    (Event.getWriterStatusCount ∈ (list_vss_writers env).2 ↔
      env.coInitHr = 0 ∧ env.createHr = 0 ∧ env.createNull = false ∧
      env.initializeHr = 0 ∧ 0 ≤ env.setBackupStateHr ∧ env.gatherHr = 0 ∧
      env.asyncNull = false ∧ 0 ≤ env.waitHr ∧ 0 ≤ env.queryStatusOut) ∧
    (Event.freeWriterStatus ∈ (list_vss_writers env).2 ↔
      env.coInitHr = 0 ∧ env.createHr = 0 ∧ env.createNull = false ∧
      env.initializeHr = 0 ∧ 0 ≤ env.setBackupStateHr ∧ env.gatherHr = 0 ∧
      env.asyncNull = false ∧ 0 ≤ env.waitHr ∧ 0 ≤ env.queryStatusOut ∧
      0 ≤ env.countHr) ∧
    (env.coInitHr = 0 → env.createHr = 0 → env.createNull = false →
      env.initializeHr = 0 → 0 ≤ env.setBackupStateHr → env.gatherHr = 0 →
      env.asyncNull = false → 0 ≤ env.waitHr → 0 ≤ env.queryStatusOut →
      0 ≤ env.countHr →
      (list_vss_writers env).1
        = (List.range env.writerCount).filterMap
          (fun i => if env.writerStatusHr i = 0
            then some (writerRecord env i) else none)) := by
  by_cases h1 : env.coInitHr = 0
  swap
  · simp [list_vss_writers, h1]
  by_cases h2 : env.createHr ≠ 0 ∨ env.createNull = true
  · rcases h2 with h2 | h2
    · simp only [list_vss_writers, h1]
      simp [h2]
    · simp only [list_vss_writers, h1]
      simp [h2]
  push_neg at h2
  obtain ⟨h2a, h2b⟩ := h2
  have h2c : env.createNull = false := by
    revert h2b; cases env.createNull <;> simp
  by_cases h3 : env.initializeHr = 0
  swap
  · simp [list_vss_writers, h1, h2a, h2c, h3]
  by_cases h4 : env.setBackupStateHr < 0
  · simp [list_vss_writers, h1, h2a, h2c, h3, h4, not_le.2 h4]
  by_cases h5 : env.gatherHr = 0
  swap
  · simp [list_vss_writers, h1, h2a, h2c, h3, h4, not_lt.1 h4, h5]
  by_cases h6 : env.asyncNull = true
  · have hEP : E_POINTER < 0 := by decide
    simp [list_vss_writers, wait_for_async, h1, h2a, h2c, h3, h4,
      not_lt.1 h4, h5, h6, hEP]
  have h6f : env.asyncNull = false := by
    revert h6; cases env.asyncNull <;> simp
  by_cases h7 : env.waitHr < 0
  · simp [list_vss_writers, wait_for_async, h1, h2a, h2c, h3, h4,
      not_lt.1 h4, h5, h6f, h7, not_le.2 h7]
  by_cases h8 : env.queryStatusOut < 0
  · simp [list_vss_writers, wait_for_async, h1, h2a, h2c, h3, h4,
      not_lt.1 h4, h5, h6f, h7, not_lt.1 h7, h8, not_le.2 h8]
  by_cases h9 : env.countHr < 0
  · simp [list_vss_writers, wait_for_async, h1, h2a, h2c, h3, h4,
      not_lt.1 h4, h5, h6f, h7, not_lt.1 h7, h8, not_lt.1 h8, h9,
      not_le.2 h9, List.mem_map]
  · simp [list_vss_writers, wait_for_async, h1, h2a, h2c, h3, h4,
      not_lt.1 h4, h5, h6f, h7, not_lt.1 h7, h8, not_lt.1 h8, h9,
      not_lt.1 h9, List.mem_map, enumLoop_eq_filterMap]

/-- Tolerant-path environment: `SetBackupState` returns 1 (positive
non-success), the async status is the positive `VSS_S_ASYNC_FINISHED`, the
count call returns 1, and the single writer's query returns 1 — so the
pipeline runs to completion but appends nothing. -/
def envTolerant : Env :=
  ⟨0, 0, false, 0, 1, 0, false, 0, -1, 271532810, 1, 1,
    fun _ => 1, fun _ => gEx, fun _ => 0, fun _ => [], okGuidOracle⟩

/-- Concrete instance of C10: positive non-success statuses at the tolerant
steps do not abort, and a positive non-`S_OK` per-writer status appends
nothing. -/
theorem failure_check_asymmetry_witness :
    Event.gatherWriterMetadata ∈ (list_vss_writers envTolerant).2 ∧
    Event.freeWriterStatus ∈ (list_vss_writers envTolerant).2 ∧
    (list_vss_writers envTolerant).1 = [] := by
  have h := failure_check_asymmetry envTolerant
  refine ⟨h.2.2.2.1.2 ⟨rfl, rfl, rfl, rfl, by decide⟩,
    h.2.2.2.2.2.1.2 ⟨rfl, rfl, rfl, rfl, by decide, rfl, rfl, by decide,
      by decide, by decide⟩, ?_⟩
  have he := h.2.2.2.2.2.2 rfl rfl rfl rfl (by decide) rfl rfl (by decide)
    (by decide) (by decide)
  rw [he]
  rfl

end VssRust
